import Mathlib

/-! Escape_Room_GameCharacter: the per-tick look-at step.

A shallow embedding of `AEscape_Room_GameCharacter::IsLookingAt`
(`Source/Escape_Room_Game/Escape_Room_GameCharacter.cpp`, lines 116-229).

The engine is abstracted to what the function reads and what it calls:

* what it reads is a `World` snapshot: whether `Cast<APlayerController>(Controller)`
  is non-null, the actor returned by the line trace (if any), and whether
  `Cast<AKeyTipHUD>(GetWorld()->GetFirstPlayerController()->GetHUD())` is non-null;
  plus the member `bDidGameEnd`;
* what it calls is recorded, in program order, as a list of `Effect`s.

`FName` tags are modelled as strings and `Tags.Contains` as list membership.
-/

namespace EscapeRoom

/-- An engine name; `Tags.Contains` compares names for equality. -/
abbrev FName := String

/-- The part of an `AActor` that `IsLookingAt` reads: its name (for the log line),
its `Tags` array, and whether its class implements `ULookableInterface`. -/
structure AActor where
  Name : String
  Tags : List FName
  ImplementsLookable : Bool
deriving DecidableEq, Repr

/-- The calls `IsLookingAt` makes on its collaborators, one constructor per call site kind. -/
inductive Effect where
  /-- `UE_LOG(LogTemp, ..., text)` -/
  | Log (text : String)
  /-- `CurrentWorld->LineTraceSingleByChannel(...)` -/
  | LineTraceSingleByChannel
  /-- `ILookableInterface::Execute_OnLookedAt(Actor, this)` -/
  | OnLookedAt (Actor : AActor)
  /-- `KeyTipHUD->SetText(text)` -/
  | SetText (text : String)
  /-- `KeyTipHUD->ShowInteractMessage(bShow)` -/
  | ShowInteractMessage (bShow : Bool)
  /-- `LastHitActor->DisableInput(...)` -/
  | DisableInput (Actor : AActor)
  /-- `DrawDebugLine(...)` -/
  | DrawDebugLine
deriving DecidableEq, Repr

/-- What one call of `IsLookingAt` reads from the engine. -/
structure World where
  /-- `Cast<APlayerController>(Controller) != nullptr` -/
  PlayerController : Bool
  /-- `ActorHit.GetActor()` after the line trace, `none` for `nullptr` -/
  ActorHit : Option AActor
  /-- `Cast<AKeyTipHUD>(GetWorld()->GetFirstPlayerController()->GetHUD()) != nullptr` -/
  KeyTipHUD : Bool
deriving DecidableEq, Repr

/-- The member state of the character that `IsLookingAt` reads. -/
structure Character where
  bDidGameEnd : Bool
deriving DecidableEq, Repr

/-- The result of one call: the calls made, the value of the local `LastHitActor`
when the function returns, and the member `bDidGameEnd` afterwards. -/
structure Outcome where
  effects : List Effect
  LastHitActor : Option AActor
  bDidGameEnd : Bool
deriving DecidableEq, Repr

/-- Lines 172-192: the local `HUDText` built for an actor tagged `"NPC"`. -/
def HUDText (Tags : List FName) : String :=
  "Says: " ++
    (if Tags.contains "OfficeNPC_1" then "I think I left the key in the drawer"
     else if Tags.contains "OfficeNPC_2" then "I was about to make some coffee..."
     else if Tags.contains "OfficeNPC_3" then "I'm reading. I did nothing else today."
     else if Tags.contains "OfficeNPC_4" then "I just came to work and took off my jacket"
     else "I don't have anything to say")

/-- Lines 157-167: the block guarded by `ImplementsInterface(ULookableInterface::StaticClass())`. -/
def lookableBlock (Actor : AActor) (KeyTipHUD : Bool) : List Effect :=
  if Actor.ImplementsLookable then
    [Effect.OnLookedAt Actor] ++
      (if KeyTipHUD then
        [Effect.SetText "Press I to Interact", Effect.ShowInteractMessage true]
       else [])
  else []

/-- Lines 169-200: the block guarded by `Actor->Tags.Contains("NPC")`. -/
def npcBlock (Actor : AActor) (KeyTipHUD : Bool) : List Effect :=
  if Actor.Tags.contains "NPC" then
    [Effect.Log "Looking at a NPC"] ++
      (if KeyTipHUD then
        [Effect.SetText (HUDText Actor.Tags), Effect.ShowInteractMessage true]
       else [])
  else []

/-- Lines 116-229: one call of `AEscape_Room_GameCharacter::IsLookingAt`. -/
def IsLookingAt (w : World) (c : Character) : Outcome :=
  if w.PlayerController = false then
    ⟨[Effect.Log "PlayerController is null"], none, c.bDidGameEnd⟩
  else
    let LastHitActor : Option AActor := none
    match w.ActorHit with
    | some Actor =>
      if Actor.Tags.contains "Wall" then
        ⟨[Effect.LineTraceSingleByChannel, Effect.Log "Found Wall", Effect.DrawDebugLine],
          LastHitActor, c.bDidGameEnd⟩
      else if Actor.Tags.contains "CanBeLookedAtByPlayer" then
        ⟨[Effect.LineTraceSingleByChannel, Effect.Log ("Looking at " ++ Actor.Name)]
            ++ lookableBlock Actor w.KeyTipHUD
            ++ npcBlock Actor w.KeyTipHUD
            ++ [Effect.DrawDebugLine],
          if Actor.ImplementsLookable then some Actor else LastHitActor,
          c.bDidGameEnd⟩
      else
        ⟨[Effect.LineTraceSingleByChannel]
            ++ (if w.KeyTipHUD && c.bDidGameEnd == false then
                  [Effect.ShowInteractMessage false] else [])
            ++ (match LastHitActor with
                | some a => [Effect.DisableInput a]
                | none => [])
            ++ [Effect.DrawDebugLine],
          LastHitActor, c.bDidGameEnd⟩
    | none =>
      ⟨[Effect.LineTraceSingleByChannel]
          ++ (if w.KeyTipHUD then [Effect.ShowInteractMessage false] else [])
          ++ [Effect.DrawDebugLine],
        LastHitActor, c.bDidGameEnd⟩

/-- A prompt command as the HUD receives it: `Show text` is `SetText(text)` followed by
`ShowInteractMessage(true)`, `Hide` is `ShowInteractMessage(false)`. -/
inductive PromptCommand where
  | Show (text : String)
  | Hide
deriving DecidableEq, Repr

/-- The prompt commands contained in a sequence of calls, in order. -/
def promptCommands : List Effect → List PromptCommand
  | Effect.SetText t :: Effect.ShowInteractMessage true :: rest =>
      PromptCommand.Show t :: promptCommands rest
  | Effect.ShowInteractMessage false :: rest => PromptCommand.Hide :: promptCommands rest
  | _ :: rest => promptCommands rest
  | [] => []

/-- Modelled from the spec: `AKeyTipHUD` is declared outside this source file; the HUD
keeps its own displayed text and visibility, set by `SetText` and `ShowInteractMessage`. -/
structure KeyTipHUD where
  Text : String
  Visible : Bool
deriving DecidableEq, Repr

/-- Modelled from the spec: the effect of one call on the HUD (`set_prompt_text`,
`set_prompt_visible`); calls on other collaborators leave it unchanged. -/
def KeyTipHUD.apply (h : KeyTipHUD) : Effect → KeyTipHUD
  | Effect.SetText t => { h with Text := t }
  | Effect.ShowInteractMessage b => { h with Visible := b }
  | _ => h

/-- The HUD after a sequence of calls. -/
def KeyTipHUD.run (h : KeyTipHUD) (es : List Effect) : KeyTipHUD :=
  es.foldl KeyTipHUD.apply h

/-- The argument of the last `SetText` call in a sequence of calls, if there is one. -/
def lastSetText (es : List Effect) : Option String :=
  (es.filterMap (fun e => match e with | Effect.SetText t => some t | _ => none)).getLast?

/-- The numbered NPC sub-tags, in the order lines 174-186 test them. -/
def officeNPCTag : Fin 4 → FName
  | 0 => "OfficeNPC_1"
  | 1 => "OfficeNPC_2"
  | 2 => "OfficeNPC_3"
  | 3 => "OfficeNPC_4"

/-- A tag array with every numbered sub-tag later than the `k`-th removed. -/
def dropLaterSubTags (k : Fin 4) (Tags : List FName) : List FName :=
  Tags.filter (fun t => decide (∀ j : Fin 4, k < j → t ≠ officeNPCTag j))

/-- Lines 236-239: `SetDidGameEnd`, the only assignment to `bDidGameEnd` after construction. -/
def SetDidGameEnd (_c : Character) (DidGameEnd : Bool) : Character :=
  ⟨DidGameEnd⟩

/-- Lines 231-234: `Tick` calls `IsLookingAt` and nothing else. -/
def Tick (w : World) (c : Character) : Outcome :=
  IsLookingAt w c

/-- Consecutive ticks, one world snapshot per tick: each tick starts from the member state
the previous one left, and the outcomes are listed in order. Nothing else is carried from
one tick to the next, `LastHitActor` being a local of `IsLookingAt`. -/
def Ticks : List World → Character → List Outcome
  | [], _ => []
  | w :: ws, c => Tick w c :: Ticks ws ⟨(Tick w c).bDidGameEnd⟩

/-- The calls made over a run of ticks, in program order. -/
def allEffects : List Outcome → List Effect
  | [] => []
  | o :: os => o.effects ++ allEffects os

/-! ## The five paths through `IsLookingAt` -/

/-- Lines 120-124: the early return when there is no player controller. -/
theorem IsLookingAt_noController (w : World) (c : Character)
    (hpc : w.PlayerController = false) :
    IsLookingAt w c = ⟨[Effect.Log "PlayerController is null"], none, c.bDidGameEnd⟩ := by
  simp [IsLookingAt, hpc]

/-- Lines 217-224: the path taken when the trace hits no actor. -/
theorem IsLookingAt_noHit (w : World) (c : Character)
    (hpc : w.PlayerController = true) (hhit : w.ActorHit = none) :
    IsLookingAt w c =
      ⟨[Effect.LineTraceSingleByChannel]
          ++ (if w.KeyTipHUD then [Effect.ShowInteractMessage false] else [])
          ++ [Effect.DrawDebugLine],
        none, c.bDidGameEnd⟩ := by
  simp [IsLookingAt, hpc, hhit]

/-- Lines 147-151: the path taken when the hit actor is tagged "Wall". -/
theorem IsLookingAt_wall (w : World) (c : Character) (Actor : AActor)
    (hpc : w.PlayerController = true) (hhit : w.ActorHit = some Actor)
    (hwall : "Wall" ∈ Actor.Tags) :
    IsLookingAt w c =
      ⟨[Effect.LineTraceSingleByChannel, Effect.Log "Found Wall", Effect.DrawDebugLine],
        none, c.bDidGameEnd⟩ := by
  simp [IsLookingAt, hpc, hhit, hwall]

/-- Lines 153-200: the path taken when the hit actor is tagged "CanBeLookedAtByPlayer"
and not "Wall". -/
theorem IsLookingAt_canBeLookedAt (w : World) (c : Character) (Actor : AActor)
    (hpc : w.PlayerController = true) (hhit : w.ActorHit = some Actor)
    (hwall : "Wall" ∉ Actor.Tags) (hcan : "CanBeLookedAtByPlayer" ∈ Actor.Tags) :
    IsLookingAt w c =
      ⟨[Effect.LineTraceSingleByChannel, Effect.Log ("Looking at " ++ Actor.Name)]
          ++ lookableBlock Actor w.KeyTipHUD
          ++ npcBlock Actor w.KeyTipHUD
          ++ [Effect.DrawDebugLine],
        if Actor.ImplementsLookable then some Actor else none,
        c.bDidGameEnd⟩ := by
  simp [IsLookingAt, hpc, hhit, hwall, hcan]

/-- Lines 201-214: the path taken when the hit actor has neither tag. -/
theorem IsLookingAt_uncategorised (w : World) (c : Character) (Actor : AActor)
    (hpc : w.PlayerController = true) (hhit : w.ActorHit = some Actor)
    (hwall : "Wall" ∉ Actor.Tags) (hcan : "CanBeLookedAtByPlayer" ∉ Actor.Tags) :
    IsLookingAt w c =
      ⟨[Effect.LineTraceSingleByChannel]
          ++ (if w.KeyTipHUD && c.bDidGameEnd == false then
                [Effect.ShowInteractMessage false] else [])
          ++ [Effect.DrawDebugLine],
        none, c.bDidGameEnd⟩ := by
  simp [IsLookingAt, hpc, hhit, hwall, hcan]

example : (IsLookingAt ⟨true, some ⟨"W", ["Wall", "CanBeLookedAtByPlayer", "NPC"], true⟩, true⟩ ⟨false⟩).effects
    = [Effect.LineTraceSingleByChannel, Effect.Log "Found Wall", Effect.DrawDebugLine] := by
  decide

example : promptCommands (IsLookingAt ⟨true, some ⟨"N", ["CanBeLookedAtByPlayer", "NPC"], true⟩, true⟩ ⟨false⟩).effects
    = [PromptCommand.Show "Press I to Interact", PromptCommand.Show "Says: I don't have anything to say"] := by
  decide

/-- C1. Occlusion precedence: when the controller is present (HUD present or absent) and
the ray hits an actor whose tags contain "Wall", whatever its other tags and whether or not
it implements Lookable, the step makes no `SetText` call, no `ShowInteractMessage(true)`
call, emits no Show command, and invokes `OnLookedAt` on no actor. -/
theorem wall_never_shown_nor_looked_at (w : World) (c : Character) (Actor : AActor)
    (hpc : w.PlayerController = true)
    (hhit : w.ActorHit = some Actor) (hwall : "Wall" ∈ Actor.Tags) :
    (∀ t, Effect.SetText t ∉ (IsLookingAt w c).effects) ∧
    Effect.ShowInteractMessage true ∉ (IsLookingAt w c).effects ∧
    (∀ t, PromptCommand.Show t ∉ promptCommands (IsLookingAt w c).effects) ∧
    (∀ a, Effect.OnLookedAt a ∉ (IsLookingAt w c).effects) := by
  rw [IsLookingAt_wall w c Actor hpc hhit hwall]
  simp [promptCommands]

/-- C1 at a wall that also carries every interactable and NPC tag and implements Lookable. -/
theorem wall_never_shown_nor_looked_at_witness :
    (∀ t, Effect.SetText t ∉ (IsLookingAt
        ⟨true, some ⟨"W", ["NPC", "OfficeNPC_1", "CanBeLookedAtByPlayer", "Wall"], true⟩, true⟩
        ⟨false⟩).effects) ∧
    Effect.ShowInteractMessage true ∉ (IsLookingAt
        ⟨true, some ⟨"W", ["NPC", "OfficeNPC_1", "CanBeLookedAtByPlayer", "Wall"], true⟩, true⟩
        ⟨false⟩).effects ∧
    (∀ t, PromptCommand.Show t ∉ promptCommands (IsLookingAt
        ⟨true, some ⟨"W", ["NPC", "OfficeNPC_1", "CanBeLookedAtByPlayer", "Wall"], true⟩, true⟩
        ⟨false⟩).effects) ∧
    (∀ a, Effect.OnLookedAt a ∉ (IsLookingAt
        ⟨true, some ⟨"W", ["NPC", "OfficeNPC_1", "CanBeLookedAtByPlayer", "Wall"], true⟩, true⟩
        ⟨false⟩).effects) :=
  wall_never_shown_nor_looked_at _ _ _ rfl rfl (by decide)

/-- C3 at its failing input: with controller and HUD present and the game not ended, a first
tick hits a Lookable door tagged "CanBeLookedAtByPlayer" and shows the prompt; a second tick
hits an actor tagged "Wall". The second tick only logs "Found Wall": it makes no
`ShowInteractMessage(false)` call, so no Hide is emitted where the claim requires one, and
the HUD is left showing "Press I to Interact", while the same second tick on an untagged
floor or on nothing does hide the prompt. -/
theorem wall_emits_no_hide_leaves_prompt_visible :
    "Wall" ∈ (AActor.mk "Bricks" ["Wall"] false).Tags ∧
    (IsLookingAt ⟨true, some ⟨"Bricks", ["Wall"], false⟩, true⟩ ⟨false⟩).effects
      = [Effect.LineTraceSingleByChannel, Effect.Log "Found Wall", Effect.DrawDebugLine] ∧
    Effect.ShowInteractMessage false ∉
      (IsLookingAt ⟨true, some ⟨"Bricks", ["Wall"], false⟩, true⟩ ⟨false⟩).effects ∧
    PromptCommand.Hide ∉ promptCommands
      (IsLookingAt ⟨true, some ⟨"Bricks", ["Wall"], false⟩, true⟩ ⟨false⟩).effects ∧
    (KeyTipHUD.mk "" false).run (allEffects (Ticks
        [⟨true, some ⟨"Door", ["CanBeLookedAtByPlayer"], true⟩, true⟩,
         ⟨true, some ⟨"Bricks", ["Wall"], false⟩, true⟩] ⟨false⟩))
      = ⟨"Press I to Interact", true⟩ ∧
    (KeyTipHUD.mk "" false).run (allEffects (Ticks
        [⟨true, some ⟨"Door", ["CanBeLookedAtByPlayer"], true⟩, true⟩,
         ⟨true, some ⟨"Floor", [], false⟩, true⟩] ⟨false⟩))
      = ⟨"Press I to Interact", false⟩ ∧
    (KeyTipHUD.mk "" false).run (allEffects (Ticks
        [⟨true, some ⟨"Door", ["CanBeLookedAtByPlayer"], true⟩, true⟩,
         ⟨true, none, true⟩] ⟨false⟩))
      = ⟨"Press I to Interact", false⟩ := by
  decide

/-- C4, as stated, fails: a Lookable actor tagged "CanBeLookedAtByPlayer" and "NPC" is hit with
controller and HUD present; the step sends two Show commands (four HUD calls), the default
prompt from the Lookable block and then the dialogue text from the NPC block. -/
theorem two_prompt_commands_counterexample :
    (IsLookingAt ⟨true, some ⟨"Clerk", ["CanBeLookedAtByPlayer", "NPC"], true⟩, true⟩
        ⟨false⟩).effects
      = [Effect.LineTraceSingleByChannel, Effect.Log "Looking at Clerk",
          Effect.OnLookedAt ⟨"Clerk", ["CanBeLookedAtByPlayer", "NPC"], true⟩,
          Effect.SetText "Press I to Interact", Effect.ShowInteractMessage true,
          Effect.Log "Looking at a NPC",
          Effect.SetText "Says: I don't have anything to say", Effect.ShowInteractMessage true,
          Effect.DrawDebugLine] ∧
    (promptCommands
      (IsLookingAt ⟨true, some ⟨"Clerk", ["CanBeLookedAtByPlayer", "NPC"], true⟩, true⟩
        ⟨false⟩).effects).length = 2 ∧
    ¬ (promptCommands
      (IsLookingAt ⟨true, some ⟨"Clerk", ["CanBeLookedAtByPlayer", "NPC"], true⟩, true⟩
        ⟨false⟩).effects).length ≤ 1 := by
  decide

/-- C4, amended. For every input of `IsLookingAt` the number of prompt commands sent to the
HUD is at most one, except on the path where the controller and HUD are present and the hit
actor is tagged "CanBeLookedAtByPlayer" and "NPC", not "Wall", and implements Lookable: there
the step sends exactly two Show commands, the default prompt followed by the dialogue text.
In every case the number is at most two. -/
theorem prompt_commands_per_step (w : World) (c : Character) :
    (promptCommands (IsLookingAt w c).effects).length ≤ 2 ∧
    (∀ Actor, w.PlayerController = true → w.KeyTipHUD = true → w.ActorHit = some Actor →
        "Wall" ∉ Actor.Tags → "CanBeLookedAtByPlayer" ∈ Actor.Tags → "NPC" ∈ Actor.Tags →
        Actor.ImplementsLookable = true →
        promptCommands (IsLookingAt w c).effects =
          [PromptCommand.Show "Press I to Interact",
            PromptCommand.Show (HUDText Actor.Tags)]) ∧
    (¬ (∃ Actor, w.PlayerController = true ∧ w.KeyTipHUD = true ∧ w.ActorHit = some Actor ∧
        "Wall" ∉ Actor.Tags ∧ "CanBeLookedAtByPlayer" ∈ Actor.Tags ∧ "NPC" ∈ Actor.Tags ∧
        Actor.ImplementsLookable = true) →
      (promptCommands (IsLookingAt w c).effects).length ≤ 1) := by
  obtain ⟨pc, hit, hud⟩ := w
  obtain ⟨ended⟩ := c
  cases pc
  · simp [IsLookingAt, promptCommands]
  · cases hit with
    | none => cases hud <;> simp [IsLookingAt, promptCommands]
    | some Actor =>
      by_cases hwall : "Wall" ∈ Actor.Tags
      · simp [IsLookingAt, promptCommands, hwall]
      · by_cases hcan : "CanBeLookedAtByPlayer" ∈ Actor.Tags
        · by_cases hnpc : "NPC" ∈ Actor.Tags <;> cases hl : Actor.ImplementsLookable <;>
            cases hud <;>
            simp [IsLookingAt, promptCommands, hwall, hcan, hnpc, hl, lookableBlock, npcBlock]
        · cases hud <;> cases ended <;>
            simp [IsLookingAt, promptCommands, hwall, hcan]

/-- The amended C4 at a Lookable NPC: exactly two Show commands. -/
theorem prompt_commands_per_step_witness :
    promptCommands
      (IsLookingAt ⟨true, some ⟨"Clerk", ["CanBeLookedAtByPlayer", "NPC", "OfficeNPC_4"], true⟩,
        true⟩ ⟨false⟩).effects =
      [PromptCommand.Show "Press I to Interact",
        PromptCommand.Show
          (HUDText (AActor.mk "Clerk" ["CanBeLookedAtByPlayer", "NPC", "OfficeNPC_4"] true).Tags)] :=
  (prompt_commands_per_step
      ⟨true, some ⟨"Clerk", ["CanBeLookedAtByPlayer", "NPC", "OfficeNPC_4"], true⟩, true⟩
      ⟨false⟩).2.1
    ⟨"Clerk", ["CanBeLookedAtByPlayer", "NPC", "OfficeNPC_4"], true⟩ rfl rfl rfl
    (by decide) (by decide) (by decide) rfl

/-- C5. No hit: when the controller and HUD are present and the trace hits no actor, for any
value of the game-ended flag, the step emits exactly one Hide and nothing else to the HUD
(no `SetText`, no `ShowInteractMessage(true)`, no Show), invokes `OnLookedAt` on no actor,
and `LastHitActor` is empty when the step returns. -/
theorem no_hit_hides_once (w : World) (c : Character)
    (hpc : w.PlayerController = true) (hhud : w.KeyTipHUD = true)
    (hhit : w.ActorHit = none) :
    promptCommands (IsLookingAt w c).effects = [PromptCommand.Hide] ∧
    (IsLookingAt w c).effects.count (Effect.ShowInteractMessage false) = 1 ∧
    (∀ t, Effect.SetText t ∉ (IsLookingAt w c).effects) ∧
    Effect.ShowInteractMessage true ∉ (IsLookingAt w c).effects ∧
    (∀ t, PromptCommand.Show t ∉ promptCommands (IsLookingAt w c).effects) ∧
    (∀ a, Effect.OnLookedAt a ∉ (IsLookingAt w c).effects) ∧
    (IsLookingAt w c).LastHitActor = none := by
  rw [IsLookingAt_noHit w c hpc hhit]
  simp [hhud, promptCommands]

/-- C5 at an empty line of sight, game ended. -/
theorem no_hit_hides_once_witness :
    promptCommands (IsLookingAt ⟨true, none, true⟩ ⟨true⟩).effects = [PromptCommand.Hide] ∧
    (IsLookingAt ⟨true, none, true⟩ ⟨true⟩).effects.count (Effect.ShowInteractMessage false) = 1 ∧
    (∀ t, Effect.SetText t ∉ (IsLookingAt ⟨true, none, true⟩ ⟨true⟩).effects) ∧
    Effect.ShowInteractMessage true ∉ (IsLookingAt ⟨true, none, true⟩ ⟨true⟩).effects ∧
    (∀ t, PromptCommand.Show t ∉
      promptCommands (IsLookingAt ⟨true, none, true⟩ ⟨true⟩).effects) ∧
    (∀ a, Effect.OnLookedAt a ∉ (IsLookingAt ⟨true, none, true⟩ ⟨true⟩).effects) ∧
    (IsLookingAt ⟨true, none, true⟩ ⟨true⟩).LastHitActor = none :=
  no_hit_hides_once ⟨true, none, true⟩ ⟨true⟩ rfl rfl rfl

/-- C6. Uncategorised actor and end-of-game suppression: when the controller and HUD are
present and the ray hits an actor tagged neither "Wall" nor "CanBeLookedAtByPlayer", the step
makes no `SetText` call and no `ShowInteractMessage(true)` call (no Show) and invokes
`OnLookedAt` on no actor; its prompt commands are exactly one Hide when `bDidGameEnd` is
false and none when it is true. -/
theorem uncategorised_hides_unless_game_ended (w : World) (c : Character) (Actor : AActor)
    (hpc : w.PlayerController = true) (hhud : w.KeyTipHUD = true)
    (hhit : w.ActorHit = some Actor)
    (hwall : "Wall" ∉ Actor.Tags) (hcan : "CanBeLookedAtByPlayer" ∉ Actor.Tags) :
    (∀ t, Effect.SetText t ∉ (IsLookingAt w c).effects) ∧
    Effect.ShowInteractMessage true ∉ (IsLookingAt w c).effects ∧
    (∀ t, PromptCommand.Show t ∉ promptCommands (IsLookingAt w c).effects) ∧
    (∀ a, Effect.OnLookedAt a ∉ (IsLookingAt w c).effects) ∧
    (c.bDidGameEnd = false →
      promptCommands (IsLookingAt w c).effects = [PromptCommand.Hide] ∧
      (IsLookingAt w c).effects.count (Effect.ShowInteractMessage false) = 1) ∧
    (c.bDidGameEnd = true →
      promptCommands (IsLookingAt w c).effects = [] ∧
      ∀ b, Effect.ShowInteractMessage b ∉ (IsLookingAt w c).effects) := by
  rw [IsLookingAt_uncategorised w c Actor hpc hhit hwall hcan]
  obtain ⟨ended⟩ := c
  cases ended <;> simp [hhud, promptCommands]

/-- C6 at an actor tagged only "NPC" and "OfficeNPC_1", game ended. -/
theorem uncategorised_hides_unless_game_ended_witness :
    (∀ t, Effect.SetText t ∉
      (IsLookingAt ⟨true, some ⟨"Ghost", ["NPC", "OfficeNPC_1"], true⟩, true⟩ ⟨true⟩).effects) ∧
    Effect.ShowInteractMessage true ∉
      (IsLookingAt ⟨true, some ⟨"Ghost", ["NPC", "OfficeNPC_1"], true⟩, true⟩ ⟨true⟩).effects ∧
    (∀ t, PromptCommand.Show t ∉ promptCommands
      (IsLookingAt ⟨true, some ⟨"Ghost", ["NPC", "OfficeNPC_1"], true⟩, true⟩ ⟨true⟩).effects) ∧
    (∀ a, Effect.OnLookedAt a ∉
      (IsLookingAt ⟨true, some ⟨"Ghost", ["NPC", "OfficeNPC_1"], true⟩, true⟩ ⟨true⟩).effects) ∧
    ((Character.mk true).bDidGameEnd = false →
      promptCommands
        (IsLookingAt ⟨true, some ⟨"Ghost", ["NPC", "OfficeNPC_1"], true⟩, true⟩ ⟨true⟩).effects
        = [PromptCommand.Hide] ∧
      (IsLookingAt ⟨true, some ⟨"Ghost", ["NPC", "OfficeNPC_1"], true⟩, true⟩
        ⟨true⟩).effects.count (Effect.ShowInteractMessage false) = 1) ∧
    ((Character.mk true).bDidGameEnd = true →
      promptCommands
        (IsLookingAt ⟨true, some ⟨"Ghost", ["NPC", "OfficeNPC_1"], true⟩, true⟩ ⟨true⟩).effects
        = [] ∧
      ∀ b, Effect.ShowInteractMessage b ∉
        (IsLookingAt ⟨true, some ⟨"Ghost", ["NPC", "OfficeNPC_1"], true⟩, true⟩ ⟨true⟩).effects) :=
  uncategorised_hides_unless_game_ended
    ⟨true, some ⟨"Ghost", ["NPC", "OfficeNPC_1"], true⟩, true⟩ ⟨true⟩
    ⟨"Ghost", ["NPC", "OfficeNPC_1"], true⟩ rfl rfl rfl (by decide) (by decide)

/-! ## The NPC dialogue -/

/-- Lines 169-199 on the "CanBeLookedAtByPlayer" path with the HUD present: whatever the
Lookable block did before, an actor tagged "NPC" leaves the HUD showing `HUDText`, and the
last prompt command of the step is `Show HUDText`. -/
theorem npc_path_final_text (w : World) (c : Character) (Actor : AActor)
    (hpc : w.PlayerController = true) (hhud : w.KeyTipHUD = true)
    (hhit : w.ActorHit = some Actor)
    (hwall : "Wall" ∉ Actor.Tags) (hcan : "CanBeLookedAtByPlayer" ∈ Actor.Tags)
    (hnpc : "NPC" ∈ Actor.Tags) :
    (∀ h : KeyTipHUD, h.run (IsLookingAt w c).effects = ⟨HUDText Actor.Tags, true⟩) ∧
    (promptCommands (IsLookingAt w c).effects).getLast? =
      some (PromptCommand.Show (HUDText Actor.Tags)) ∧
    lastSetText (IsLookingAt w c).effects = some (HUDText Actor.Tags) := by
  rw [IsLookingAt_canBeLookedAt w c Actor hpc hhit hwall hcan]
  cases hl : Actor.ImplementsLookable <;>
    simp [lookableBlock, npcBlock, hl, hhud, hnpc, promptCommands, KeyTipHUD.run,
      KeyTipHUD.apply, lastSetText]

/-- Lines 157-160 on the "CanBeLookedAtByPlayer" path: `OnLookedAt` is called once on the hit
actor when its class implements Lookable, and on no actor otherwise. -/
theorem canBeLookedAt_onLookedAt (w : World) (c : Character) (Actor : AActor)
    (hpc : w.PlayerController = true) (hhit : w.ActorHit = some Actor)
    (hwall : "Wall" ∉ Actor.Tags) (hcan : "CanBeLookedAtByPlayer" ∈ Actor.Tags) :
    (Actor.ImplementsLookable = true →
      (IsLookingAt w c).effects.count (Effect.OnLookedAt Actor) = 1) ∧
    (Actor.ImplementsLookable = false →
      ∀ a, Effect.OnLookedAt a ∉ (IsLookingAt w c).effects) := by
  rw [IsLookingAt_canBeLookedAt w c Actor hpc hhit hwall hcan]
  constructor <;> intro hl <;> cases w.KeyTipHUD <;>
    by_cases hnpc : "NPC" ∈ Actor.Tags <;>
    simp [lookableBlock, npcBlock, hl, hnpc, List.count_cons]

/-- Distinct indices name distinct sub-tags. -/
theorem officeNPCTag_injective :
    ∀ i j : Fin 4, officeNPCTag i = officeNPCTag j → i = j := by
  decide

/-- Membership in `dropLaterSubTags`. -/
theorem mem_dropLaterSubTags (k : Fin 4) (Tags : List FName) (t : FName) :
    t ∈ dropLaterSubTags k Tags ↔ t ∈ Tags ∧ ∀ j : Fin 4, k < j → t ≠ officeNPCTag j := by
  simp [dropLaterSubTags, List.mem_filter]

/-- A numbered sub-tag survives `dropLaterSubTags k` exactly when it is not later than `k`. -/
theorem officeNPCTag_mem_dropLaterSubTags (k i : Fin 4) (Tags : List FName) :
    officeNPCTag i ∈ dropLaterSubTags k Tags ↔ officeNPCTag i ∈ Tags ∧ i ≤ k := by
  rw [mem_dropLaterSubTags]
  constructor
  · rintro ⟨h, hj⟩
    refine ⟨h, ?_⟩
    by_contra hlt
    exact hj i (not_le.mp hlt) rfl
  · rintro ⟨h, hle⟩
    refine ⟨h, fun j hj he => ?_⟩
    have := officeNPCTag_injective i j he
    omega

/-- A tag that is not a numbered sub-tag is untouched by `dropLaterSubTags`. -/
theorem other_mem_dropLaterSubTags (k : Fin 4) (Tags : List FName) (t : FName)
    (ht : ∀ j : Fin 4, t ≠ officeNPCTag j) :
    t ∈ dropLaterSubTags k Tags ↔ t ∈ Tags := by
  rw [mem_dropLaterSubTags]
  exact ⟨fun h => h.1, fun h => ⟨h, fun j _ => ht j⟩⟩

/-- Lines 174-192: the text is decided by the earliest numbered sub-tag present. -/
theorem HUDText_first_match (k : Fin 4) (Tags : List FName)
    (hk : officeNPCTag k ∈ Tags) (hmin : ∀ i : Fin 4, i < k → officeNPCTag i ∉ Tags) :
    HUDText Tags = HUDText [officeNPCTag k] := by
  have hm0 := hmin 0
  have hm1 := hmin 1
  have hm2 := hmin 2
  fin_cases k <;> simp [officeNPCTag] at hk hm0 hm1 hm2 ⊢ <;> simp [HUDText, *]

/-- Removing the sub-tags later than the earliest one present does not change the text. -/
theorem HUDText_dropLaterSubTags (k : Fin 4) (Tags : List FName)
    (hk : officeNPCTag k ∈ Tags) (hmin : ∀ i : Fin 4, i < k → officeNPCTag i ∉ Tags) :
    HUDText (dropLaterSubTags k Tags) = HUDText Tags := by
  rw [HUDText_first_match k Tags hk hmin]
  apply HUDText_first_match k
  · exact (officeNPCTag_mem_dropLaterSubTags k k Tags).2 ⟨hk, le_refl k⟩
  · intro i hi h
    exact hmin i hi ((officeNPCTag_mem_dropLaterSubTags k i Tags).1 h).1

example : HUDText ["OfficeNPC_3", "X", "OfficeNPC_1"]
    = "Says: I think I left the key in the drawer" := by decide

example : dropLaterSubTags 1 ["OfficeNPC_3", "X", "OfficeNPC_2", "OfficeNPC_4", "OfficeNPC_1"]
    = ["X", "OfficeNPC_2", "OfficeNPC_1"] := by decide

/-- A tag array carrying some numbered sub-tag has an earliest one. -/
theorem exists_first_officeNPCTag (Tags : List FName)
    (h : ∃ j : Fin 4, officeNPCTag j ∈ Tags) :
    ∃ k : Fin 4, officeNPCTag k ∈ Tags ∧ ∀ i : Fin 4, i < k → officeNPCTag i ∉ Tags := by
  obtain ⟨j, hj⟩ := h
  by_cases h0 : officeNPCTag 0 ∈ Tags
  · exact ⟨0, h0, fun i hi => absurd hi (Fin.not_lt_zero i)⟩
  by_cases h1 : officeNPCTag 1 ∈ Tags
  · refine ⟨1, h1, fun i hi => ?_⟩
    fin_cases i <;> first | exact h0 | exact absurd hi (by decide)
  by_cases h2 : officeNPCTag 2 ∈ Tags
  · refine ⟨2, h2, fun i hi => ?_⟩
    fin_cases i <;> first | exact h0 | exact h1 | exact absurd hi (by decide)
  by_cases h3 : officeNPCTag 3 ∈ Tags
  · refine ⟨3, h3, fun i hi => ?_⟩
    fin_cases i <;> first | exact h0 | exact h1 | exact h2 | exact absurd hi (by decide)
  fin_cases j <;> contradiction

/-- C7, as stated, fails: an actor tagged exactly "CanBeLookedAtByPlayer", "NPC" and
"OfficeNPC_3" whose class does not implement Lookable is hit with controller and HUD present;
the dialogue text is shown but `OnLookedAt` is not invoked on it. -/
theorem officeNPC3_not_lookable_counterexample :
    (IsLookingAt
        ⟨true, some ⟨"Reader", ["CanBeLookedAtByPlayer", "NPC", "OfficeNPC_3"], false⟩, true⟩
        ⟨false⟩).effects
      = [Effect.LineTraceSingleByChannel, Effect.Log "Looking at Reader",
          Effect.Log "Looking at a NPC",
          Effect.SetText "Says: I'm reading. I did nothing else today.",
          Effect.ShowInteractMessage true, Effect.DrawDebugLine] ∧
    Effect.OnLookedAt ⟨"Reader", ["CanBeLookedAtByPlayer", "NPC", "OfficeNPC_3"], false⟩ ∉
      (IsLookingAt
        ⟨true, some ⟨"Reader", ["CanBeLookedAtByPlayer", "NPC", "OfficeNPC_3"], false⟩, true⟩
        ⟨false⟩).effects := by
  decide

/-- C7, amended. NPC with OfficeNPC_3: when the controller and HUD are present and the ray
hits an actor whose tag set is exactly "CanBeLookedAtByPlayer", "NPC", "OfficeNPC_3", the HUD
is left showing "Says: I'm reading. I did nothing else today." (the last text set) with the
prompt visible, that Show being the last prompt command of the step; `OnLookedAt` is invoked on the actor exactly
once if it implements Lookable and on no actor if it does not. -/
theorem officeNPC3_text_and_dispatch (w : World) (c : Character) (Actor : AActor)
    (hpc : w.PlayerController = true) (hhud : w.KeyTipHUD = true)
    (hhit : w.ActorHit = some Actor)
    (htags : ∀ t, t ∈ Actor.Tags ↔
      t = "CanBeLookedAtByPlayer" ∨ t = "NPC" ∨ t = "OfficeNPC_3") :
    lastSetText (IsLookingAt w c).effects =
      some "Says: I'm reading. I did nothing else today." ∧
    (∀ h : KeyTipHUD, h.run (IsLookingAt w c).effects =
      ⟨"Says: I'm reading. I did nothing else today.", true⟩) ∧
    (promptCommands (IsLookingAt w c).effects).getLast? =
      some (PromptCommand.Show "Says: I'm reading. I did nothing else today.") ∧
    (Actor.ImplementsLookable = true →
      (IsLookingAt w c).effects.count (Effect.OnLookedAt Actor) = 1) ∧
    (Actor.ImplementsLookable = false →
      ∀ a, Effect.OnLookedAt a ∉ (IsLookingAt w c).effects) := by
  have hcan : "CanBeLookedAtByPlayer" ∈ Actor.Tags := (htags _).2 (Or.inl rfl)
  have hnpc : "NPC" ∈ Actor.Tags := (htags _).2 (Or.inr (Or.inl rfl))
  have h3 : "OfficeNPC_3" ∈ Actor.Tags := (htags _).2 (Or.inr (Or.inr rfl))
  have hwall : "Wall" ∉ Actor.Tags := fun h => by simpa using (htags _).1 h
  have h1 : "OfficeNPC_1" ∉ Actor.Tags := fun h => by simpa using (htags _).1 h
  have h2 : "OfficeNPC_2" ∉ Actor.Tags := fun h => by simpa using (htags _).1 h
  have htext : HUDText Actor.Tags = "Says: I'm reading. I did nothing else today." := by
    simp [HUDText, h1, h2, h3]
  have hfin := npc_path_final_text w c Actor hpc hhud hhit hwall hcan hnpc
  have hdisp := canBeLookedAt_onLookedAt w c Actor hpc hhit hwall hcan
  rw [htext] at hfin
  exact ⟨hfin.2.2, hfin.1, hfin.2.1, hdisp.1, hdisp.2⟩

/-- The amended C7 at a Lookable reader, starting from a hidden, empty HUD. -/
theorem officeNPC3_text_and_dispatch_witness :
    (KeyTipHUD.mk "" false).run
      (IsLookingAt
        ⟨true, some ⟨"Reader", ["OfficeNPC_3", "NPC", "CanBeLookedAtByPlayer"], true⟩, true⟩
        ⟨false⟩).effects
      = ⟨"Says: I'm reading. I did nothing else today.", true⟩ ∧
    (IsLookingAt
        ⟨true, some ⟨"Reader", ["OfficeNPC_3", "NPC", "CanBeLookedAtByPlayer"], true⟩, true⟩
        ⟨false⟩).effects.count
      (Effect.OnLookedAt ⟨"Reader", ["OfficeNPC_3", "NPC", "CanBeLookedAtByPlayer"], true⟩) = 1 :=
  have h := officeNPC3_text_and_dispatch
    ⟨true, some ⟨"Reader", ["OfficeNPC_3", "NPC", "CanBeLookedAtByPlayer"], true⟩, true⟩
    ⟨false⟩ ⟨"Reader", ["OfficeNPC_3", "NPC", "CanBeLookedAtByPlayer"], true⟩ rfl rfl rfl
    (by intro t; simp only [List.mem_cons, List.mem_nil_iff, or_false]; tauto)
  ⟨h.2.1 _, h.2.2.2.1 rfl⟩

/-- C8, as stated, fails at OfficeNPC_2: the text the code sets ends in three full stops
("coffee..."), not in the single ellipsis character the claim requires ("coffee…"). -/
theorem officeNPC2_ellipsis_counterexample :
    (KeyTipHUD.mk "" false).run
      (IsLookingAt
        ⟨true, some ⟨"Barista", ["CanBeLookedAtByPlayer", "NPC", "OfficeNPC_2"], false⟩, true⟩
        ⟨false⟩).effects
      = ⟨"Says: I was about to make some coffee...", true⟩ ∧
    (KeyTipHUD.mk "" false).run
      (IsLookingAt
        ⟨true, some ⟨"Barista", ["CanBeLookedAtByPlayer", "NPC", "OfficeNPC_2"], false⟩, true⟩
        ⟨false⟩).effects
      ≠ ⟨"Says: " ++ "I was about to make some coffee…", true⟩ ∧
    Effect.SetText ("Says: " ++ "I was about to make some coffee…") ∉
      (IsLookingAt
        ⟨true, some ⟨"Barista", ["CanBeLookedAtByPlayer", "NPC", "OfficeNPC_2"], false⟩, true⟩
        ⟨false⟩).effects := by
  decide

/-- C8, amended. Dialogue table: when the controller and HUD are present and the ray hits an
actor tagged "CanBeLookedAtByPlayer" and "NPC", not "Wall", carrying exactly one of the
sub-tags OfficeNPC_1..OfficeNPC_4, the HUD is left showing "Says: " followed by that
sub-tag's message, where the OfficeNPC_2 message is "I was about to make some coffee..."
ending in three full stops. -/
theorem dialogue_table (w : World) (c : Character) (Actor : AActor)
    (hpc : w.PlayerController = true) (hhud : w.KeyTipHUD = true)
    (hhit : w.ActorHit = some Actor)
    (hcan : "CanBeLookedAtByPlayer" ∈ Actor.Tags) (hnpc : "NPC" ∈ Actor.Tags)
    (hwall : "Wall" ∉ Actor.Tags) :
    ("OfficeNPC_1" ∈ Actor.Tags → "OfficeNPC_2" ∉ Actor.Tags → "OfficeNPC_3" ∉ Actor.Tags →
      "OfficeNPC_4" ∉ Actor.Tags →
      lastSetText (IsLookingAt w c).effects = some ("Says: " ++ "I think I left the key in the drawer") ∧
      ∀ h : KeyTipHUD, h.run (IsLookingAt w c).effects =
        ⟨"Says: " ++ "I think I left the key in the drawer", true⟩) ∧
    ("OfficeNPC_1" ∉ Actor.Tags → "OfficeNPC_2" ∈ Actor.Tags → "OfficeNPC_3" ∉ Actor.Tags →
      "OfficeNPC_4" ∉ Actor.Tags →
      lastSetText (IsLookingAt w c).effects = some ("Says: " ++ "I was about to make some coffee...") ∧
      ∀ h : KeyTipHUD, h.run (IsLookingAt w c).effects =
        ⟨"Says: " ++ "I was about to make some coffee...", true⟩) ∧
    ("OfficeNPC_1" ∉ Actor.Tags → "OfficeNPC_2" ∉ Actor.Tags → "OfficeNPC_3" ∈ Actor.Tags →
      "OfficeNPC_4" ∉ Actor.Tags →
      lastSetText (IsLookingAt w c).effects = some ("Says: " ++ "I'm reading. I did nothing else today.") ∧
      ∀ h : KeyTipHUD, h.run (IsLookingAt w c).effects =
        ⟨"Says: " ++ "I'm reading. I did nothing else today.", true⟩) ∧
    ("OfficeNPC_1" ∉ Actor.Tags → "OfficeNPC_2" ∉ Actor.Tags → "OfficeNPC_3" ∉ Actor.Tags →
      "OfficeNPC_4" ∈ Actor.Tags →
      lastSetText (IsLookingAt w c).effects = some ("Says: " ++ "I just came to work and took off my jacket") ∧
      ∀ h : KeyTipHUD, h.run (IsLookingAt w c).effects =
        ⟨"Says: " ++ "I just came to work and took off my jacket", true⟩) := by
  have hfin := npc_path_final_text w c Actor hpc hhud hhit hwall hcan hnpc
  refine ⟨?_, ?_, ?_, ?_⟩ <;> intro h1 h2 h3 h4 <;>
    refine ⟨?_, fun h => ?_⟩ <;> (first | rw [hfin.2.2] | rw [hfin.1 h]) <;>
    simp [HUDText, h1, h2, h3, h4]

/-- The amended C8 at a Lookable actor carrying only OfficeNPC_2. -/
theorem dialogue_table_witness :
    (KeyTipHUD.mk "Press I to Interact" false).run
      (IsLookingAt
        ⟨true, some ⟨"Barista", ["CanBeLookedAtByPlayer", "NPC", "OfficeNPC_2"], true⟩, true⟩
        ⟨false⟩).effects
      = ⟨"Says: " ++ "I was about to make some coffee...", true⟩ :=
  ((dialogue_table
    ⟨true, some ⟨"Barista", ["CanBeLookedAtByPlayer", "NPC", "OfficeNPC_2"], true⟩, true⟩
    ⟨false⟩ ⟨"Barista", ["CanBeLookedAtByPlayer", "NPC", "OfficeNPC_2"], true⟩ rfl rfl rfl
    (by decide) (by decide) (by decide)).2.1
    (by decide) (by decide) (by decide) (by decide)).2 _

/-- C9. Dialogue fallback: when the controller and HUD are present and the ray hits an actor
tagged "CanBeLookedAtByPlayer" and "NPC", not "Wall", and carrying none of OfficeNPC_1..4
(whatever else it carries), the last text set on the HUD is
"Says: I don't have anything to say", the HUD is left showing it with the prompt visible,
and that Show is the last prompt command of the step. -/
theorem dialogue_fallback (w : World) (c : Character) (Actor : AActor)
    (hpc : w.PlayerController = true) (hhud : w.KeyTipHUD = true)
    (hhit : w.ActorHit = some Actor)
    (hcan : "CanBeLookedAtByPlayer" ∈ Actor.Tags) (hnpc : "NPC" ∈ Actor.Tags)
    (hwall : "Wall" ∉ Actor.Tags)
    (h1 : "OfficeNPC_1" ∉ Actor.Tags) (h2 : "OfficeNPC_2" ∉ Actor.Tags)
    (h3 : "OfficeNPC_3" ∉ Actor.Tags) (h4 : "OfficeNPC_4" ∉ Actor.Tags) :
    lastSetText (IsLookingAt w c).effects = some "Says: I don't have anything to say" ∧
    (∀ h : KeyTipHUD, h.run (IsLookingAt w c).effects =
      ⟨"Says: I don't have anything to say", true⟩) ∧
    (promptCommands (IsLookingAt w c).effects).getLast? =
      some (PromptCommand.Show "Says: I don't have anything to say") := by
  have htext : HUDText Actor.Tags = "Says: I don't have anything to say" := by
    simp [HUDText, h1, h2, h3, h4]
  have hfin := npc_path_final_text w c Actor hpc hhud hhit hwall hcan hnpc
  rw [htext] at hfin
  exact ⟨hfin.2.2, hfin.1, hfin.2.1⟩

/-- C9 at a Lookable NPC carrying an unrelated extra tag. -/
theorem dialogue_fallback_witness :
    lastSetText
      (IsLookingAt
        ⟨true, some ⟨"Intern", ["NPC", "Quiet", "CanBeLookedAtByPlayer"], true⟩, true⟩
        ⟨false⟩).effects = some "Says: I don't have anything to say" ∧
    (∀ h : KeyTipHUD, h.run
      (IsLookingAt
        ⟨true, some ⟨"Intern", ["NPC", "Quiet", "CanBeLookedAtByPlayer"], true⟩, true⟩
        ⟨false⟩).effects = ⟨"Says: I don't have anything to say", true⟩) ∧
    (promptCommands
      (IsLookingAt
        ⟨true, some ⟨"Intern", ["NPC", "Quiet", "CanBeLookedAtByPlayer"], true⟩, true⟩
        ⟨false⟩).effects).getLast? =
      some (PromptCommand.Show "Says: I don't have anything to say") :=
  dialogue_fallback
    ⟨true, some ⟨"Intern", ["NPC", "Quiet", "CanBeLookedAtByPlayer"], true⟩, true⟩ ⟨false⟩
    ⟨"Intern", ["NPC", "Quiet", "CanBeLookedAtByPlayer"], true⟩ rfl rfl rfl
    (by decide) (by decide) (by decide) (by decide) (by decide) (by decide) (by decide)

/-- C10. Dialogue priority (first match wins): when the controller and HUD are present and the
ray hits an actor tagged "CanBeLookedAtByPlayer" and "NPC", not "Wall", carrying at least one
numbered sub-tag, then for `k` the earliest sub-tag present: the dialogue text built from its
tags equals the text built from the tags with every later sub-tag removed, the text the step
sets on the HUD is the same for the actor and for the actor with those tags removed, and it
is the text of the `k`-th sub-tag alone. In particular with both OfficeNPC_1 and OfficeNPC_3
present it is the OfficeNPC_1 message. -/
theorem dialogue_first_match_wins (w : World) (c : Character) (Actor : AActor)
    (hpc : w.PlayerController = true) (hhud : w.KeyTipHUD = true)
    (hhit : w.ActorHit = some Actor)
    (hcan : "CanBeLookedAtByPlayer" ∈ Actor.Tags) (hnpc : "NPC" ∈ Actor.Tags)
    (hwall : "Wall" ∉ Actor.Tags)
    (hsub : ∃ j : Fin 4, officeNPCTag j ∈ Actor.Tags) :
    (∃ k : Fin 4,
      officeNPCTag k ∈ Actor.Tags ∧ (∀ i : Fin 4, i < k → officeNPCTag i ∉ Actor.Tags) ∧
      HUDText Actor.Tags = HUDText (dropLaterSubTags k Actor.Tags) ∧
      lastSetText (IsLookingAt w c).effects =
        lastSetText (IsLookingAt
          ⟨w.PlayerController,
            some { Actor with Tags := dropLaterSubTags k Actor.Tags }, w.KeyTipHUD⟩ c).effects ∧
      lastSetText (IsLookingAt w c).effects = some (HUDText [officeNPCTag k])) ∧
    ("OfficeNPC_1" ∈ Actor.Tags → "OfficeNPC_3" ∈ Actor.Tags →
      lastSetText (IsLookingAt w c).effects =
        some ("Says: " ++ "I think I left the key in the drawer")) := by
  have hfin := (npc_path_final_text w c Actor hpc hhud hhit hwall hcan hnpc).2.2
  constructor
  · obtain ⟨k, hk, hmin⟩ := exists_first_officeNPCTag Actor.Tags hsub
    have hdrop := HUDText_dropLaterSubTags k Actor.Tags hk hmin
    have hfirst := HUDText_first_match k Actor.Tags hk hmin
    have hcan2 : "CanBeLookedAtByPlayer" ∈ dropLaterSubTags k Actor.Tags :=
      (other_mem_dropLaterSubTags k Actor.Tags _ (by decide)).2 hcan
    have hnpc2 : "NPC" ∈ dropLaterSubTags k Actor.Tags :=
      (other_mem_dropLaterSubTags k Actor.Tags _ (by decide)).2 hnpc
    have hwall2 : "Wall" ∉ dropLaterSubTags k Actor.Tags :=
      fun h => hwall ((other_mem_dropLaterSubTags k Actor.Tags _ (by decide)).1 h)
    have hfin2 := (npc_path_final_text
      ⟨w.PlayerController, some { Actor with Tags := dropLaterSubTags k Actor.Tags },
        w.KeyTipHUD⟩ c
      { Actor with Tags := dropLaterSubTags k Actor.Tags } hpc hhud rfl hwall2 hcan2 hnpc2).2.2
    refine ⟨k, hk, hmin, hdrop.symm, ?_, ?_⟩
    · rw [hfin, hfin2, hdrop]
    · rw [hfin, hfirst]
  · intro h1 _
    rw [hfin]
    simp [HUDText, h1]

/-- C10 at an actor carrying OfficeNPC_3, OfficeNPC_1 and OfficeNPC_4: the step shows the
OfficeNPC_1 message, and removing the two later sub-tags gives the same text. -/
theorem dialogue_first_match_wins_witness :
    dropLaterSubTags 0
        ["OfficeNPC_3", "NPC", "OfficeNPC_1", "CanBeLookedAtByPlayer", "OfficeNPC_4"]
      = ["NPC", "OfficeNPC_1", "CanBeLookedAtByPlayer"] ∧
    HUDText ["OfficeNPC_3", "NPC", "OfficeNPC_1", "CanBeLookedAtByPlayer", "OfficeNPC_4"]
      = HUDText ["NPC", "OfficeNPC_1", "CanBeLookedAtByPlayer"] ∧
    lastSetText (IsLookingAt
      ⟨true, some ⟨"Boss",
        ["OfficeNPC_3", "NPC", "OfficeNPC_1", "CanBeLookedAtByPlayer", "OfficeNPC_4"], true⟩,
        true⟩ ⟨false⟩).effects
      = some ("Says: " ++ "I think I left the key in the drawer") :=
  have h := dialogue_first_match_wins
    ⟨true, some ⟨"Boss",
      ["OfficeNPC_3", "NPC", "OfficeNPC_1", "CanBeLookedAtByPlayer", "OfficeNPC_4"], true⟩,
      true⟩ ⟨false⟩
    ⟨"Boss", ["OfficeNPC_3", "NPC", "OfficeNPC_1", "CanBeLookedAtByPlayer", "OfficeNPC_4"], true⟩
    rfl rfl rfl (by decide) (by decide) (by decide) ⟨2, by decide⟩
  ⟨by decide, by decide, h.2 (by decide) (by decide)⟩

/-! ## Runs of consecutive ticks -/

/-- No path of `IsLookingAt` assigns `bDidGameEnd`. -/
theorem IsLookingAt_bDidGameEnd (w : World) (c : Character) :
    (IsLookingAt w c).bDidGameEnd = c.bDidGameEnd := by
  unfold IsLookingAt
  split
  · rfl
  · split
    · split
      · rfl
      · split <;> rfl
    · rfl

/-- A run of ticks is the list of single steps, each taken from the initial member state. -/
theorem Ticks_eq_map (ws : List World) (c : Character) :
    Ticks ws c = ws.map (fun w => IsLookingAt w c) := by
  induction ws generalizing c with
  | nil => rfl
  | cons w ws ih =>
    have hc : (⟨(Tick w c).bDidGameEnd⟩ : Character) = c := by
      cases c
      simp [Tick, IsLookingAt_bDidGameEnd]
    show Tick w c :: Ticks ws ⟨(Tick w c).bDidGameEnd⟩ = _
    rw [hc, ih c]
    rfl

/-- The calls of a run extended by one tick. -/
theorem allEffects_append (os ps : List Outcome) :
    allEffects (os ++ ps) = allEffects os ++ allEffects ps := by
  induction os with
  | nil => rfl
  | cons o os ih => simp [allEffects, ih]

/-- `DisableInput` is called on no path of `IsLookingAt`: line 212 is guarded by
`LastHitActor != nullptr` in the one branch where `LastHitActor` is still `nullptr`. -/
theorem IsLookingAt_no_disableInput (w : World) (c : Character) (a : AActor) :
    Effect.DisableInput a ∉ (IsLookingAt w c).effects := by
  obtain ⟨pc, hit, hud⟩ := w
  cases pc
  · simp [IsLookingAt]
  · cases hit with
    | none => cases hud <;> simp [IsLookingAt]
    | some Actor =>
      by_cases hwall : "Wall" ∈ Actor.Tags
      · simp [IsLookingAt, hwall]
      · by_cases hcan : "CanBeLookedAtByPlayer" ∈ Actor.Tags
        · by_cases hnpc : "NPC" ∈ Actor.Tags <;> cases hl : Actor.ImplementsLookable <;>
            cases hud <;>
            simp [IsLookingAt, hwall, hcan, hnpc, hl, lookableBlock, npcBlock]
        · cases hud <;> cases hb : c.bDidGameEnd <;> simp [IsLookingAt, hwall, hcan, hb]

example : (Ticks [⟨true, none, true⟩, ⟨false, none, true⟩] ⟨true⟩).map Outcome.effects
    = [[Effect.LineTraceSingleByChannel, Effect.ShowInteractMessage false, Effect.DrawDebugLine],
       [Effect.Log "PlayerController is null"]] := by
  decide

/-- The last tick of a run is the single step on its own snapshot. -/
theorem Ticks_append_singleton_getLast (earlier : List World) (w : World) (c : Character) :
    (Ticks (earlier ++ [w]) c).getLast? = some (IsLookingAt w c) := by
  simp [Ticks_eq_map]

/-- C11. Capability dispatch is level-triggered and gated on the capability: when the
controller is present and the ray hits an actor tagged "CanBeLookedAtByPlayer" and not
"Wall", the step calls `OnLookedAt` on that actor exactly once if it implements Lookable and
on no actor if it does not; the same holds for that step taken after any earlier ticks; and
over a run of ticks that all hit the same such Lookable actor the number of `OnLookedAt`
calls on it equals the number of ticks. -/
theorem onLookedAt_every_step (earlier ws : List World) (w : World) (c : Character)
    (Actor : AActor)
    (hpc : w.PlayerController = true) (hhit : w.ActorHit = some Actor)
    (hcan : "CanBeLookedAtByPlayer" ∈ Actor.Tags) (hwall : "Wall" ∉ Actor.Tags)
    (hws : ∀ v ∈ ws, v.PlayerController = true ∧ v.ActorHit = some Actor) :
    (Actor.ImplementsLookable = true →
      (IsLookingAt w c).effects.count (Effect.OnLookedAt Actor) = 1) ∧
    (Actor.ImplementsLookable = false →
      ∀ a, Effect.OnLookedAt a ∉ (IsLookingAt w c).effects) ∧
    ((Ticks (earlier ++ [w]) c).getLast?.map
        (fun o => o.effects.count (Effect.OnLookedAt Actor)) =
      some (if Actor.ImplementsLookable then 1 else 0)) ∧
    (Actor.ImplementsLookable = true →
      (allEffects (Ticks ws c)).count (Effect.OnLookedAt Actor) = ws.length) := by
  have hstep := canBeLookedAt_onLookedAt w c Actor hpc hhit hwall hcan
  refine ⟨hstep.1, hstep.2, ?_, ?_⟩
  · rw [Ticks_append_singleton_getLast]
    cases hl : Actor.ImplementsLookable
    · have h0 := hstep.2 hl Actor
      simp [List.count_eq_zero.mpr h0]
    · simp [hstep.1 hl]
  · intro hl
    rw [Ticks_eq_map]
    induction ws with
    | nil => rfl
    | cons v vs ih =>
      have hv := hws v (List.mem_cons_self v vs)
      have h1 := (canBeLookedAt_onLookedAt v c Actor hv.1 hv.2 hwall hcan).1 hl
      have ih2 := ih (fun u hu => hws u (List.mem_cons_of_mem v hu))
      simp only [List.map_cons, allEffects, List.count_append, h1, ih2, List.length_cons]
      omega

/-- C11 at a Lookable door: once in one step, once in that step after two other ticks, and
three times over three ticks that hit it (HUD absent in the second). -/
theorem onLookedAt_every_step_witness :
    (IsLookingAt ⟨true, some ⟨"Door", ["CanBeLookedAtByPlayer"], true⟩, true⟩
        ⟨false⟩).effects.count (Effect.OnLookedAt ⟨"Door", ["CanBeLookedAtByPlayer"], true⟩) = 1 ∧
    (Ticks ([⟨true, none, true⟩, ⟨true, some ⟨"Bricks", ["Wall"], false⟩, true⟩] ++
        [⟨true, some ⟨"Door", ["CanBeLookedAtByPlayer"], true⟩, true⟩]) ⟨false⟩).getLast?.map
        (fun o => o.effects.count (Effect.OnLookedAt ⟨"Door", ["CanBeLookedAtByPlayer"], true⟩))
      = some (if (AActor.mk "Door" ["CanBeLookedAtByPlayer"] true).ImplementsLookable
          then 1 else 0) ∧
    (allEffects (Ticks
        [⟨true, some ⟨"Door", ["CanBeLookedAtByPlayer"], true⟩, true⟩,
         ⟨true, some ⟨"Door", ["CanBeLookedAtByPlayer"], true⟩, false⟩,
         ⟨true, some ⟨"Door", ["CanBeLookedAtByPlayer"], true⟩, true⟩] ⟨false⟩)).count
        (Effect.OnLookedAt ⟨"Door", ["CanBeLookedAtByPlayer"], true⟩) = 3 :=
  have h := onLookedAt_every_step
    [⟨true, none, true⟩, ⟨true, some ⟨"Bricks", ["Wall"], false⟩, true⟩]
    [⟨true, some ⟨"Door", ["CanBeLookedAtByPlayer"], true⟩, true⟩,
     ⟨true, some ⟨"Door", ["CanBeLookedAtByPlayer"], true⟩, false⟩,
     ⟨true, some ⟨"Door", ["CanBeLookedAtByPlayer"], true⟩, true⟩]
    ⟨true, some ⟨"Door", ["CanBeLookedAtByPlayer"], true⟩, true⟩ ⟨false⟩
    ⟨"Door", ["CanBeLookedAtByPlayer"], true⟩ rfl rfl (by decide) (by decide) (by decide)
  ⟨h.1 rfl, h.2.2.1, h.2.2.2 rfl⟩

/-- C12 at its failing input: a first tick hits a Lookable door tagged
"CanBeLookedAtByPlayer" (`OnLookedAt` is called and `LastHitActor` is the door when the step
returns); a second tick hits an untagged floor, or a wall, or nothing. In each case the
second tick makes no `DisableInput` call on the door, where the claim requires exactly one:
the call counts over the two ticks are 0. -/
theorem teardown_never_calls_disableInput :
    (Ticks [⟨true, some ⟨"Door", ["CanBeLookedAtByPlayer"], true⟩, true⟩,
            ⟨true, some ⟨"Floor", [], false⟩, true⟩] ⟨false⟩).map Outcome.LastHitActor
      = [some ⟨"Door", ["CanBeLookedAtByPlayer"], true⟩, none] ∧
    (Ticks [⟨true, some ⟨"Door", ["CanBeLookedAtByPlayer"], true⟩, true⟩,
            ⟨true, some ⟨"Floor", [], false⟩, true⟩] ⟨false⟩).map Outcome.effects
      = [[Effect.LineTraceSingleByChannel, Effect.Log "Looking at Door",
          Effect.OnLookedAt ⟨"Door", ["CanBeLookedAtByPlayer"], true⟩,
          Effect.SetText "Press I to Interact", Effect.ShowInteractMessage true,
          Effect.DrawDebugLine],
         [Effect.LineTraceSingleByChannel, Effect.ShowInteractMessage false,
          Effect.DrawDebugLine]] ∧
    (allEffects (Ticks [⟨true, some ⟨"Door", ["CanBeLookedAtByPlayer"], true⟩, true⟩,
            ⟨true, some ⟨"Floor", [], false⟩, true⟩] ⟨false⟩)).count
        (Effect.DisableInput ⟨"Door", ["CanBeLookedAtByPlayer"], true⟩) = 0 ∧
    (allEffects (Ticks [⟨true, some ⟨"Door", ["CanBeLookedAtByPlayer"], true⟩, true⟩,
            ⟨true, some ⟨"Bricks", ["Wall"], false⟩, true⟩] ⟨false⟩)).count
        (Effect.DisableInput ⟨"Door", ["CanBeLookedAtByPlayer"], true⟩) = 0 ∧
    (allEffects (Ticks [⟨true, some ⟨"Door", ["CanBeLookedAtByPlayer"], true⟩, true⟩,
            ⟨true, none, true⟩] ⟨false⟩)).count
        (Effect.DisableInput ⟨"Door", ["CanBeLookedAtByPlayer"], true⟩) = 0 := by
  decide

/-- C13. Step idempotence: for every world snapshot and every value of the game-ended flag,
two consecutive ticks on the unchanged snapshot produce the same outcome twice; the second
tick, started from the member state the first one left, makes the same calls, hence emits
the same prompt commands, and returns with the same `LastHitActor`. -/
theorem step_idempotent (w : World) (c : Character) :
    Ticks [w, w] c = [IsLookingAt w c, IsLookingAt w c] ∧
    (IsLookingAt w ⟨(IsLookingAt w c).bDidGameEnd⟩).effects = (IsLookingAt w c).effects ∧
    promptCommands (IsLookingAt w ⟨(IsLookingAt w c).bDidGameEnd⟩).effects =
      promptCommands (IsLookingAt w c).effects ∧
    (IsLookingAt w ⟨(IsLookingAt w c).bDidGameEnd⟩).LastHitActor =
      (IsLookingAt w c).LastHitActor := by
  have hc : (⟨(IsLookingAt w c).bDidGameEnd⟩ : Character) = c := by
    cases c
    simp [IsLookingAt_bDidGameEnd]
  rw [hc, Ticks_eq_map]
  simp

/-- C14. Missing context: when `Cast<APlayerController>(Controller)` is null, for every world
state and flag value, the step makes the single call `UE_LOG("PlayerController is null")`:
no line trace, no `SetText` or `ShowInteractMessage` (no prompt command), no `OnLookedAt`, no
`DisableInput`; `LastHitActor` is empty and `bDidGameEnd` is unchanged. -/
theorem missing_controller_does_nothing (w : World) (c : Character)
    (hpc : w.PlayerController = false) :
    (IsLookingAt w c).effects = [Effect.Log "PlayerController is null"] ∧
    Effect.LineTraceSingleByChannel ∉ (IsLookingAt w c).effects ∧
    promptCommands (IsLookingAt w c).effects = [] ∧
    (∀ t, Effect.SetText t ∉ (IsLookingAt w c).effects) ∧
    (∀ b, Effect.ShowInteractMessage b ∉ (IsLookingAt w c).effects) ∧
    (∀ a, Effect.OnLookedAt a ∉ (IsLookingAt w c).effects) ∧
    (∀ a, Effect.DisableInput a ∉ (IsLookingAt w c).effects) ∧
    (IsLookingAt w c).LastHitActor = none ∧
    (IsLookingAt w c).bDidGameEnd = c.bDidGameEnd := by
  rw [IsLookingAt_noController w c hpc]
  simp [promptCommands]

/-- C14 with a Lookable NPC in the line of sight, HUD present, game ended. -/
theorem missing_controller_does_nothing_witness :
    (IsLookingAt ⟨false, some ⟨"Clerk", ["CanBeLookedAtByPlayer", "NPC"], true⟩, true⟩
        ⟨true⟩).effects = [Effect.Log "PlayerController is null"] ∧
    (IsLookingAt ⟨false, some ⟨"Clerk", ["CanBeLookedAtByPlayer", "NPC"], true⟩, true⟩
        ⟨true⟩).bDidGameEnd = true :=
  have h := missing_controller_does_nothing
    ⟨false, some ⟨"Clerk", ["CanBeLookedAtByPlayer", "NPC"], true⟩, true⟩ ⟨true⟩ rfl
  ⟨h.1, h.2.2.2.2.2.2.2.2⟩

/-- Line 160 is the only assignment to `LastHitActor`: it is non-empty at return exactly on
the "CanBeLookedAtByPlayer" path for an actor that implements Lookable. -/
theorem LastHitActor_eq_some_iff (w : World) (c : Character) (E : AActor) :
    (IsLookingAt w c).LastHitActor = some E ↔
      w.PlayerController = true ∧ w.ActorHit = some E ∧ "Wall" ∉ E.Tags ∧
        "CanBeLookedAtByPlayer" ∈ E.Tags ∧ E.ImplementsLookable = true := by
  cases hpc : w.PlayerController
  · rw [IsLookingAt_noController w c hpc]
    simp
  · cases hhit : w.ActorHit with
    | none =>
      rw [IsLookingAt_noHit w c hpc hhit]
      simp
    | some Actor =>
      by_cases hwall : "Wall" ∈ Actor.Tags
      · rw [IsLookingAt_wall w c Actor hpc hhit hwall]
        constructor
        · intro h
          exact absurd h (by simp)
        · rintro ⟨-, h, hw, -, -⟩
          cases h
          exact absurd hwall hw
      · by_cases hcan : "CanBeLookedAtByPlayer" ∈ Actor.Tags
        · rw [IsLookingAt_canBeLookedAt w c Actor hpc hhit hwall hcan]
          cases hl : Actor.ImplementsLookable
          · constructor
            · intro h
              exact absurd h (by simp)
            · rintro ⟨-, h, -, -, hE⟩
              cases h
              rw [hl] at hE
              exact absurd hE (by decide)
          · constructor
            · intro h
              have hE : Actor = E := by simpa using h
              subst hE
              exact ⟨rfl, rfl, hwall, hcan, hl⟩
            · rintro ⟨-, h, -, -, -⟩
              cases h
              simp
        · rw [IsLookingAt_uncategorised w c Actor hpc hhit hwall hcan]
          constructor
          · intro h
            exact absurd h (by simp)
          · rintro ⟨-, h, -, hc, -⟩
            cases h
            exact absurd hc hcan

/-- On every path other than the Lookable one, `LastHitActor` is empty at return. -/
theorem LastHitActor_eq_none (w : World) (c : Character)
    (h : ∀ E, ¬ (w.PlayerController = true ∧ w.ActorHit = some E ∧ "Wall" ∉ E.Tags ∧
        "CanBeLookedAtByPlayer" ∈ E.Tags ∧ E.ImplementsLookable = true)) :
    (IsLookingAt w c).LastHitActor = none := by
  cases hl : (IsLookingAt w c).LastHitActor with
  | none => rfl
  | some E => exact absurd ((LastHitActor_eq_some_iff w c E).1 hl) (h E)

/-- C15, as stated, fails: an actor tagged "CanBeLookedAtByPlayer" and not "Wall" whose class
does not implement Lookable is hit with the controller present, and `LastHitActor` is empty
when the step returns, not the actor. -/
theorem focus_not_lookable_counterexample :
    "CanBeLookedAtByPlayer" ∈ (AActor.mk "Door" ["CanBeLookedAtByPlayer"] false).Tags ∧
    "Wall" ∉ (AActor.mk "Door" ["CanBeLookedAtByPlayer"] false).Tags ∧
    (IsLookingAt ⟨true, some ⟨"Door", ["CanBeLookedAtByPlayer"], false⟩, true⟩
        ⟨false⟩).LastHitActor = none ∧
    (IsLookingAt ⟨true, some ⟨"Door", ["CanBeLookedAtByPlayer"], false⟩, true⟩
        ⟨false⟩).LastHitActor ≠ some ⟨"Door", ["CanBeLookedAtByPlayer"], false⟩ := by
  decide

/-- C15, amended. Focus update: when the controller is present and the ray hits an actor E
tagged "CanBeLookedAtByPlayer" and not "Wall", `LastHitActor` at the end of the step is E if
E implements Lookable and empty if it does not; in every other step (no hit, "Wall", neither
category tag, or no controller) it is empty at the end of the step. -/
theorem focus_update (w : World) (c : Character) (E : AActor) :
    (w.PlayerController = true → w.ActorHit = some E →
      "CanBeLookedAtByPlayer" ∈ E.Tags → "Wall" ∉ E.Tags →
      (E.ImplementsLookable = true → (IsLookingAt w c).LastHitActor = some E) ∧
      (E.ImplementsLookable = false → (IsLookingAt w c).LastHitActor = none)) ∧
    (w.ActorHit = none → (IsLookingAt w c).LastHitActor = none) ∧
    (w.ActorHit = some E → "Wall" ∈ E.Tags → (IsLookingAt w c).LastHitActor = none) ∧
    (w.ActorHit = some E → "Wall" ∉ E.Tags → "CanBeLookedAtByPlayer" ∉ E.Tags →
      (IsLookingAt w c).LastHitActor = none) ∧
    (w.PlayerController = false → (IsLookingAt w c).LastHitActor = none) := by
  refine ⟨fun hpc hhit hcan hwall => ⟨fun hl => ?_, fun hl => ?_⟩, fun hhit => ?_,
    fun hhit hwall => ?_, fun hhit _ hcan => ?_, fun hpc => ?_⟩
  · exact (LastHitActor_eq_some_iff w c E).2 ⟨hpc, hhit, hwall, hcan, hl⟩
  · refine LastHitActor_eq_none w c (fun E2 h => ?_)
    have hE : E = E2 := Option.some.inj (hhit.symm.trans h.2.1)
    subst hE
    rw [hl] at h
    exact absurd h.2.2.2.2 (by decide)
  · refine LastHitActor_eq_none w c (fun E2 h => ?_)
    rw [hhit] at h
    exact absurd h.2.1 (by simp)
  · refine LastHitActor_eq_none w c (fun E2 h => ?_)
    have hE : E = E2 := Option.some.inj (hhit.symm.trans h.2.1)
    subst hE
    exact h.2.2.1 hwall
  · refine LastHitActor_eq_none w c (fun E2 h => ?_)
    have hE : E = E2 := Option.some.inj (hhit.symm.trans h.2.1)
    subst hE
    exact hcan h.2.2.2.1
  · refine LastHitActor_eq_none w c (fun E2 h => ?_)
    rw [hpc] at h
    exact absurd h.1 (by decide)

/-- The amended C15 at a Lookable NPC, HUD absent and game ended. -/
theorem focus_update_witness :
    (IsLookingAt ⟨true, some ⟨"Clerk", ["CanBeLookedAtByPlayer", "NPC"], true⟩, false⟩
        ⟨true⟩).LastHitActor = some ⟨"Clerk", ["CanBeLookedAtByPlayer", "NPC"], true⟩ :=
  ((focus_update ⟨true, some ⟨"Clerk", ["CanBeLookedAtByPlayer", "NPC"], true⟩, false⟩ ⟨true⟩
    ⟨"Clerk", ["CanBeLookedAtByPlayer", "NPC"], true⟩).1 rfl rfl (by decide) (by decide)).1 rfl

/-- Outside the uncategorised branch the calls of a step do not depend on `bDidGameEnd`. -/
theorem effects_independent_of_flag (w : World) (c1 c2 : Character)
    (h : w.PlayerController = false ∨ w.ActorHit = none ∨
      ∃ A, w.ActorHit = some A ∧ ("Wall" ∈ A.Tags ∨ "CanBeLookedAtByPlayer" ∈ A.Tags)) :
    (IsLookingAt w c1).effects = (IsLookingAt w c2).effects := by
  cases hpc : w.PlayerController
  · rw [IsLookingAt_noController w c1 hpc, IsLookingAt_noController w c2 hpc]
  · rcases h with h | h | ⟨A, hhit, hA⟩
    · rw [hpc] at h
      exact absurd h (by decide)
    · rw [IsLookingAt_noHit w c1 hpc h, IsLookingAt_noHit w c2 hpc h]
    · by_cases hwall : "Wall" ∈ A.Tags
      · rw [IsLookingAt_wall w c1 A hpc hhit hwall, IsLookingAt_wall w c2 A hpc hhit hwall]
      · have hcan : "CanBeLookedAtByPlayer" ∈ A.Tags := hA.resolve_left hwall
        rw [IsLookingAt_canBeLookedAt w c1 A hpc hhit hwall hcan,
          IsLookingAt_canBeLookedAt w c2 A hpc hhit hwall hcan]

/-- C16. The game-ended flag influences only the uncategorised branch: for two runs of
`IsLookingAt` on the same world snapshot with any two values of `bDidGameEnd`, if the
controller is missing, or the ray hits nothing, or it hits an actor tagged "Wall" or
"CanBeLookedAtByPlayer", both runs make the same calls in the same order, hence emit the
same prompt commands and make the same `OnLookedAt` and `DisableInput` calls, also when the
flag was changed by `SetDidGameEnd` just before. And on every input, the uncategorised
branch included, `IsLookingAt` leaves `bDidGameEnd` as it found it, in one step and in every
tick of a run. -/
theorem flag_only_matters_when_uncategorised (w : World) (c1 c2 : Character)
    (ws : List World) :
    ((w.PlayerController = false ∨ w.ActorHit = none ∨
        ∃ A, w.ActorHit = some A ∧ ("Wall" ∈ A.Tags ∨ "CanBeLookedAtByPlayer" ∈ A.Tags)) →
      (IsLookingAt w c1).effects = (IsLookingAt w c2).effects ∧
      promptCommands (IsLookingAt w c1).effects = promptCommands (IsLookingAt w c2).effects ∧
      (∀ a, (IsLookingAt w c1).effects.count (Effect.OnLookedAt a) =
        (IsLookingAt w c2).effects.count (Effect.OnLookedAt a)) ∧
      (∀ a, (IsLookingAt w c1).effects.count (Effect.DisableInput a) =
        (IsLookingAt w c2).effects.count (Effect.DisableInput a)) ∧
      (∀ b, (IsLookingAt w (SetDidGameEnd c1 b)).effects = (IsLookingAt w c1).effects)) ∧
    (IsLookingAt w c1).bDidGameEnd = c1.bDidGameEnd ∧
    (IsLookingAt w c2).bDidGameEnd = c2.bDidGameEnd ∧
    (Ticks ws c1).map Outcome.bDidGameEnd = ws.map (fun _ => c1.bDidGameEnd) := by
  refine ⟨fun h => ?_, IsLookingAt_bDidGameEnd w c1, IsLookingAt_bDidGameEnd w c2, ?_⟩
  · have he := effects_independent_of_flag w c1 c2 h
    refine ⟨he, ?_, ?_, ?_, fun b => effects_independent_of_flag w _ c1 h⟩
    · rw [he]
    · intro a
      rw [he]
    · intro a
      rw [he]
  · rw [Ticks_eq_map, List.map_map]
    exact List.map_congr_left (fun v _ => IsLookingAt_bDidGameEnd v c1)

/-- C16 at a Lookable NPC, game running against game ended (same calls), and at an untagged
floor with the game ended, where the flag is read and still left unchanged. -/
theorem flag_only_matters_when_uncategorised_witness :
    (IsLookingAt ⟨true, some ⟨"Clerk", ["CanBeLookedAtByPlayer", "NPC"], true⟩, true⟩
        ⟨false⟩).effects =
      (IsLookingAt ⟨true, some ⟨"Clerk", ["CanBeLookedAtByPlayer", "NPC"], true⟩, true⟩
        ⟨true⟩).effects ∧
    (IsLookingAt ⟨true, some ⟨"Floor", [], false⟩, true⟩ ⟨true⟩).bDidGameEnd = true ∧
    (IsLookingAt ⟨true, some ⟨"Floor", [], false⟩, true⟩ ⟨false⟩).bDidGameEnd = false :=
  have h := flag_only_matters_when_uncategorised
    ⟨true, some ⟨"Clerk", ["CanBeLookedAtByPlayer", "NPC"], true⟩, true⟩ ⟨false⟩ ⟨true⟩ []
  have g := flag_only_matters_when_uncategorised
    ⟨true, some ⟨"Floor", [], false⟩, true⟩ ⟨true⟩ ⟨false⟩ []
  ⟨(h.1 (Or.inr (Or.inr ⟨⟨"Clerk", ["CanBeLookedAtByPlayer", "NPC"], true⟩, rfl,
      Or.inr (by decide)⟩))).1, g.2.1, g.2.2.1⟩

/-- C17. The binding-revocation call is unreachable: for every input of `IsLookingAt`
`DisableInput` is called on no actor, and over every run of consecutive ticks it is called
zero times; `LastHitActor` is non-empty at return only for a hit actor tagged
"CanBeLookedAtByPlayer" and not "Wall", the branch exclusive with the one that tests it. -/
theorem disableInput_never_called (ws : List World) (w : World) (c : Character) (a : AActor) :
    Effect.DisableInput a ∉ (IsLookingAt w c).effects ∧
    (IsLookingAt w c).effects.count (Effect.DisableInput a) = 0 ∧
    Effect.DisableInput a ∉ allEffects (Ticks ws c) ∧
    (allEffects (Ticks ws c)).count (Effect.DisableInput a) = 0 ∧
    ((IsLookingAt w c).LastHitActor = some a →
      w.ActorHit = some a ∧ "CanBeLookedAtByPlayer" ∈ a.Tags ∧ "Wall" ∉ a.Tags) := by
  have hrun : Effect.DisableInput a ∉ allEffects (Ticks ws c) := by
    rw [Ticks_eq_map]
    induction ws with
    | nil => simp [allEffects]
    | cons v vs ih =>
      simp only [List.map_cons, allEffects, List.mem_append, not_or]
      exact ⟨IsLookingAt_no_disableInput v c a, ih⟩
  refine ⟨IsLookingAt_no_disableInput w c a,
    List.count_eq_zero.mpr (IsLookingAt_no_disableInput w c a), hrun,
    List.count_eq_zero.mpr hrun, fun hl => ?_⟩
  have h := (LastHitActor_eq_some_iff w c a).1 hl
  exact ⟨h.2.1, h.2.2.2.1, h.2.2.1⟩

/-- C17 over a run that focuses a Lookable door and then an untagged floor, the one branch
that contains the `DisableInput` call. -/
theorem disableInput_never_called_witness :
    (allEffects (Ticks
        [⟨true, some ⟨"Door", ["CanBeLookedAtByPlayer"], true⟩, true⟩,
         ⟨true, some ⟨"Floor", [], false⟩, true⟩] ⟨false⟩)).count
        (Effect.DisableInput ⟨"Door", ["CanBeLookedAtByPlayer"], true⟩) = 0 ∧
    ((IsLookingAt ⟨true, some ⟨"Door", ["CanBeLookedAtByPlayer"], true⟩, true⟩
        ⟨false⟩).LastHitActor = some ⟨"Door", ["CanBeLookedAtByPlayer"], true⟩ ∧
      "Wall" ∉ (AActor.mk "Door" ["CanBeLookedAtByPlayer"] true).Tags) :=
  have h := disableInput_never_called
    [⟨true, some ⟨"Door", ["CanBeLookedAtByPlayer"], true⟩, true⟩,
     ⟨true, some ⟨"Floor", [], false⟩, true⟩]
    ⟨true, some ⟨"Door", ["CanBeLookedAtByPlayer"], true⟩, true⟩ ⟨false⟩
    ⟨"Door", ["CanBeLookedAtByPlayer"], true⟩
  ⟨h.2.2.2.1, by decide, (h.2.2.2.2 (by decide)).2.2⟩

end EscapeRoom
